import Mathlib

/-!
Verification of the agronomic inference pipeline in src/app_prod.py
(AgriSmart Flask API). The domain logic consists of
compute_vegetation_indices, generate_recommendations, and the body of the
predict_gee request handler (growth-stage thresholds, nitrogen-level
formula, response assembly). Numeric band values are modelled by rationals;
IEEE division by zero is tracked explicitly (a quotient with zero
denominator is non-finite: NaN when the numerator is also zero, otherwise
a signed infinity that np.clip maps to the corresponding bound).
-/

namespace NdviModel

/-- The epsilon 1e-8 added to the NDVI and NDRE denominators in
compute_vegetation_indices. -/
def eps : ℚ := 1 / 100000000

/-- np.clip(x, lo, hi) on finite values: min(max(x, lo), hi). -/
def npClip (x lo hi : ℚ) : ℚ := min (max x lo) hi

/-- One entry of the indices dict: absent key (required band missing),
non-finite value (NaN survived the clip), or a finite value. -/
inductive IndexEntry where
  | missing
  | nonFinite
  | value (v : ℚ)
deriving DecidableEq

/-- Division followed by np.clip(., -1, 1), with IEEE semantics for a zero
denominator: 0/0 is NaN and np.clip keeps it NaN (nonFinite); a nonzero
numerator over zero gives a signed infinity which np.clip maps to the
matching bound 1 or -1. -/
def clipDiv (num den : ℚ) : IndexEntry :=
  if den = 0 then
    if num = 0 then IndexEntry.nonFinite
    else IndexEntry.value (if 0 < num then 1 else -1)
  else IndexEntry.value (npClip (num / den) (-1) 1)

/-- A BandSet: the four spectral bands the index formulas read, each
optionally present, scalar per band (the aggregate path). -/
structure BandSet where
  B02 : Option ℚ
  B04 : Option ℚ
  B05 : Option ℚ
  B08 : Option ℚ
deriving DecidableEq

/-- The indices dict produced by compute_vegetation_indices: one entry per
index name. -/
structure IndexSet where
  NDVI : IndexEntry
  NDRE : IndexEntry
  EVI : IndexEntry
deriving DecidableEq

/-- compute_vegetation_indices from src/app_prod.py: NDVI needs B08 and
B04, NDRE needs B08 and B05, EVI needs B08, B04 and B02; NDVI and NDRE add
1e-8 to their denominators, the EVI denominator is nir + 6 red - 7.5 blue
+ 1 with no epsilon; every computed index is clipped to [-1, 1]. -/
def compute_vegetation_indices (bands : BandSet) : IndexSet :=
  let ndvi := match bands.B08, bands.B04 with
    | some nir, some red => clipDiv (nir - red) (nir + red + eps)
    | _, _ => IndexEntry.missing
  let ndre := match bands.B08, bands.B05 with
    | some nir, some red_edge => clipDiv (nir - red_edge) (nir + red_edge + eps)
    | _, _ => IndexEntry.missing
  let evi := match bands.B08, bands.B04, bands.B02 with
    | some nir, some red, some blue =>
        clipDiv ((5/2) * (nir - red)) (nir + 6 * red - (15/2) * blue + 1)
    | _, _, _ => IndexEntry.missing
  ⟨ndvi, ndre, evi⟩

/-- The NUTRIENT_THRESHOLDS table. -/
structure NutrientThresholds where
  nitrogen_low : ℚ
  nitrogen_medium : ℚ
  nitrogen_high : ℚ
deriving DecidableEq

def NUTRIENT_THRESHOLDS : NutrientThresholds :=
  { nitrogen_low := 80, nitrogen_medium := 120, nitrogen_high := 160 }

/-- The growth-stage if/elif chain inside predict_gee. -/
def classifyGrowthStage (ndvi_mean : ℚ) : String :=
  if ndvi_mean < 3/10 then "vegetative"
  else if ndvi_mean < 1/2 then "tuber_initiation"
  else if ndvi_mean < 7/10 then "tuber_bulking"
  else "maturation"

/-- The nitrogen-level lines inside predict_gee: 80 + ndvi_mean * 100 +
noise, then np.clip(., 40, 200). The noise term stands for
np.random.normal(0, 10), made an explicit argument. -/
def nitrogenLevel (ndvi_mean noise : ℚ) : ℚ :=
  npClip (80 + ndvi_mean * 100 + noise) 40 200

/-- Body of a stage entry of the recommendations dict. The fertilizer
string embeds the nitrogen dose max(0, target - nitrogen_level) rendered
with .0f; the dose (and the fixed 60 kg/ha K for tuber_bulking) is carried
here as a number alongside the fixed text of the entry. -/
structure StageRecs where
  irrigation : String
  fertilizerDoseN : Option ℚ
  fertilizerDoseK : Option ℚ
  fertilizerText : String
  management : String
deriving DecidableEq

/-- The dict returned by generate_recommendations: exactly the four keys
growth_stage, nitrogen_level, nitrogen_status, recommendations; the last
is empty (none) for an unrecognized stage. -/
structure Recommendation where
  growth_stage : String
  nitrogen_level : ℚ
  nitrogen_status : String
  recommendations : Option StageRecs
deriving DecidableEq

/-- generate_recommendations from src/app_prod.py. -/
def generate_recommendations (growth_stage : String) (nitrogen_level : ℚ) :
    Recommendation :=
  let status :=
    if nitrogen_level < NUTRIENT_THRESHOLDS.nitrogen_low then "low"
    else if nitrogen_level < NUTRIENT_THRESHOLDS.nitrogen_medium then "medium"
    else "high"
  let recs : Option StageRecs :=
    if growth_stage = "vegetative" then
      some ⟨"Apply 1500-2000 L/ha weekly, maintain soil moisture",
            some (max 0 (120 - nitrogen_level)), none,
            "kg/ha N as basal dose",
            "Focus on leaf development, control weeds"⟩
    else if growth_stage = "tuber_initiation" then
      some ⟨"Apply 2000-2500 L/ha weekly, critical for tuber formation",
            some (max 0 (140 - nitrogen_level)), none,
            "kg/ha N as top dressing",
            "Ensure adequate soil moisture, monitor for pests"⟩
    else if growth_stage = "tuber_bulking" then
      some ⟨"Apply 2500-3000 L/ha weekly, maximum water requirement",
            some (max 0 (160 - nitrogen_level)), some 60,
            "kg/ha N + 60 kg/ha K",
            "Critical stage for yield, maintain optimal conditions"⟩
    else if growth_stage = "maturation" then
      some ⟨"Reduce to 1000-1500 L/ha, prepare for harvest",
            none, none,
            "No additional N required, focus on K for quality",
            "Prepare for harvest, monitor for diseases"⟩
    else none
  ⟨growth_stage, nitrogen_level, status, recs⟩

/-- Nitrogen dose inside the fertilizer entry of a recommendation, when
one is present. -/
def fertilizerDose (r : Recommendation) : Option ℚ :=
  r.recommendations.bind fun b => b.fertilizerDoseN

/-- Potassium dose inside the fertilizer entry of a recommendation, when
one is present. -/
def potassiumDose (r : Recommendation) : Option ℚ :=
  r.recommendations.bind fun b => b.fertilizerDoseK

/-- The JSON body posted to /predict-gee, as predict_gee reads it.
lat and lon: none when the key is absent; some none when present but
float() raises on it (non-numeric); some (some q) when float() yields q. -/
structure PredictRequest where
  use_gee : Bool
  lat : Option (Option ℚ)
  lon : Option (Option ℚ)
deriving DecidableEq

/-- The 1 km point-buffer AOI built from lon and lat. -/
structure AOI where
  lon : ℚ
  lat : ℚ
deriving DecidableEq

/-- Modelled from the spec: the WeeklySummary returned by the external
GEE integration (gee_integration.py is not under src/). predict_gee reads
only the ndvi_mean key, which may be absent; the source field is the
provenance the spec gives a WeeklySummary (live or demo path). -/
structure GeeSummary where
  ndvi_mean : Option ℚ
  source : String
deriving DecidableEq

/-- An error response: jsonify({error: msg}), status. -/
structure ErrorResp where
  error : String
  status : Nat
deriving DecidableEq

/-- The predictions object of a successful response. -/
structure Predictions where
  growth_stage : String
  nitrogen_level : ℚ
  ndvi_mean : ℚ
deriving DecidableEq

/-- The successful /predict-gee response body, field for field as
jsonify-ed by predict_gee (timestamp is the datetime.now().isoformat()
reading, made an explicit argument of the model). -/
structure SuccessResp where
  success : Bool
  predictions : Predictions
  recommendations : Recommendation
  timestamp : String
  data_source : String
  gee_summary : GeeSummary
deriving DecidableEq

/-- The AOI resolution block of predict_gee: when both lat and lon keys
are present, try to build the point buffer; any exception from float() is
caught and leaves aoi = None. Out-of-range coordinates are not checked. -/
def resolveAoi (req : PredictRequest) : Option AOI :=
  match req.lat, req.lon with
  | some latv, some lonv =>
    match latv, lonv with
    | some la, some lo => some ⟨lo, la⟩
    | _, _ => none
  | _, _ => none

/-- predict_gee from src/app_prod.py. geeAvailable collapses the
GEE_AVAILABLE and gee_integration checks; fetch is the external
gee_integration black box (get_weekly_sentinel2_data composed with
get_weekly_summary), a function of the optional AOI; noise is the
np.random.normal(0, 10) draw; now is the datetime.now() reading. A
summary without the ndvi_mean key raises KeyError, which the outer
handler turns into a 500 error response. -/
def predict_gee (geeAvailable : Bool) (fetch : Option AOI → GeeSummary)
    (req : PredictRequest) (noise : ℚ) (now : String) :
    Except ErrorResp SuccessResp :=
  if geeAvailable = false then
    Except.error ⟨"GEE integration not available", 400⟩
  else if req.use_gee = false then
    Except.error ⟨"GEE prediction requested but use_gee is False", 400⟩
  else
    let summary := fetch (resolveAoi req)
    match summary.ndvi_mean with
    | none => Except.error ⟨"ndvi_mean", 500⟩
    | some ndvi_mean =>
      let growth_stage := classifyGrowthStage ndvi_mean
      let nitrogen_level := nitrogenLevel ndvi_mean noise
      Except.ok
        ⟨true,
         ⟨growth_stage, nitrogen_level, ndvi_mean⟩,
         generate_recommendations growth_stage nitrogen_level,
         now, "Google Earth Engine", summary⟩

/-- A fetch function standing for the demo synthetic path of the external
integration: a fixed summary with provenance demo. -/
def demoFetch : Option AOI → GeeSummary :=
  fun _ => { ndvi_mean := some (1/2), source := "demo" }

/-- data_source field of a response when it is successful. -/
def okDataSource (e : Except ErrorResp SuccessResp) : Option String :=
  match e with
  | Except.ok r => some r.data_source
  | Except.error _ => none

/-- timestamp field of a response when it is successful. -/
def okTimestamp (e : Except ErrorResp SuccessResp) : Option String :=
  match e with
  | Except.ok r => some r.timestamp
  | Except.error _ => none

/-- Whether a response is the success branch (HTTP 200 with a body)
rather than an error response. -/
def isOkResp (e : Except ErrorResp SuccessResp) : Bool :=
  match e with
  | Except.ok _ => true
  | Except.error _ => false

/-- The success body predict_gee assembles for the demo fetch with no
AOI, zero noise and a fixed clock reading. -/
def demoResp : SuccessResp :=
  ⟨true,
   ⟨classifyGrowthStage (1/2), nitrogenLevel (1/2) 0, 1/2⟩,
   generate_recommendations (classifyGrowthStage (1/2)) (nitrogenLevel (1/2) 0),
   "2025-06-30T00:00:00", "Google Earth Engine", demoFetch none⟩

/-! Helper lemmas shared by the claim theorems. -/

lemma npClip_mem (x lo hi : ℚ) (h : lo ≤ hi) :
    lo ≤ npClip x lo hi ∧ npClip x lo hi ≤ hi := by
  unfold npClip
  exact ⟨le_min (le_max_right x lo) h, min_le_right _ _⟩

lemma clipDiv_value (num den : ℚ) (h : ¬(den = 0 ∧ num = 0)) :
    ∃ v, clipDiv num den = IndexEntry.value v ∧ -1 ≤ v ∧ v ≤ 1 := by
  unfold clipDiv
  by_cases hden : den = 0
  · have hnum : ¬ num = 0 := fun hn => h ⟨hden, hn⟩
    rw [if_pos hden, if_neg hnum]
    by_cases hpos : 0 < num
    · exact ⟨1, by rw [if_pos hpos], by norm_num, le_refl 1⟩
    · exact ⟨-1, by rw [if_neg hpos], le_refl (-1), by norm_num⟩
  · rw [if_neg hden]
    exact ⟨npClip (num / den) (-1) 1, rfl,
      (npClip_mem (num / den) (-1) 1 (by norm_num)).1,
      (npClip_mem (num / den) (-1) 1 (by norm_num)).2⟩

lemma predict_gee_ok (g : Bool) (fetch : Option AOI → GeeSummary)
    (req : PredictRequest) (noise : ℚ) (now : String) (r : SuccessResp)
    (h : predict_gee g fetch req noise now = Except.ok r) :
    ∃ v, (fetch (resolveAoi req)).ndvi_mean = some v ∧
      r = ⟨true, ⟨classifyGrowthStage v, nitrogenLevel v noise, v⟩,
        generate_recommendations (classifyGrowthStage v) (nitrogenLevel v noise),
        now, "Google Earth Engine", fetch (resolveAoi req)⟩ := by
  simp only [predict_gee] at h
  split_ifs at h
  cases hm : (fetch (resolveAoi req)).ndvi_mean with
  | none => rw [hm] at h; exact absurd h (by simp)
  | some v =>
    rw [hm] at h
    injection h with h2
    exact ⟨v, rfl, h2.symm⟩

/-- C2: the growth-stage classification partitions the NDVI line exactly as
the if/elif chain does, first match winning: below 0.3 vegetative, from
0.3 up to but excluding 0.5 tuber_initiation, from 0.5 up to but excluding
0.7 tuber_bulking, from 0.7 on maturation; the four boundary probes 0.29,
0.3, 0.69 and 0.7 land as the spec states. -/
theorem c2_growth_stage_thresholds : ∀ x : ℚ,
    (x < 3/10 → classifyGrowthStage x = "vegetative") ∧
    (3/10 ≤ x → x < 1/2 → classifyGrowthStage x = "tuber_initiation") ∧
    (1/2 ≤ x → x < 7/10 → classifyGrowthStage x = "tuber_bulking") ∧
    (7/10 ≤ x → classifyGrowthStage x = "maturation") ∧
    classifyGrowthStage (29/100) = "vegetative" ∧
    classifyGrowthStage (3/10) = "tuber_initiation" ∧
    classifyGrowthStage (69/100) = "tuber_bulking" ∧
    classifyGrowthStage (7/10) = "maturation" := by
  intro x
  refine ⟨?_, ?_, ?_, ?_, by norm_num [classifyGrowthStage],
    by norm_num [classifyGrowthStage], by norm_num [classifyGrowthStage],
    by norm_num [classifyGrowthStage]⟩ <;>
    (intros; unfold classifyGrowthStage; split_ifs <;> first | rfl | linarith)

/-- C2 witness: the first threshold applied at the concrete input 0.2. -/
theorem c2_growth_stage_thresholds_witness :
    classifyGrowthStage (2/10) = "vegetative" :=
  (c2_growth_stage_thresholds (2/10)).1 (by norm_num)

/-- C3: the nitrogen level computed by predict_gee equals
clip(80 + 100 ndvi + noise, 40, 200), hence always lies in [40, 200]
whatever the noise, and at ndvi_mean 0.5 with zero noise it is exactly
130. -/
theorem c3_nitrogen_level : ∀ ndvi noise : ℚ,
    nitrogenLevel ndvi noise = npClip (80 + 100 * ndvi + noise) 40 200 ∧
    40 ≤ nitrogenLevel ndvi noise ∧ nitrogenLevel ndvi noise ≤ 200 ∧
    nitrogenLevel (1/2) 0 = 130 := by
  intro ndvi noise
  refine ⟨by unfold nitrogenLevel; ring_nf, ?_, ?_,
    by norm_num [nitrogenLevel, npClip, max_def, min_def]⟩
  · exact (npClip_mem (80 + ndvi * 100 + noise) 40 200 (by norm_num)).1
  · exact (npClip_mem (80 + ndvi * 100 + noise) 40 200 (by norm_num)).2

/-- C4: the nitrogen dose in a recommendation is max(0, target - n) with
target 120 for vegetative, 140 for tuber_initiation and 160 for
tuber_bulking (which also carries 60 kg/ha K); maturation carries no
nitrogen dose; at the probes, vegetative with n = 100 doses 20 and
tuber_bulking with n = 200 doses 0. -/
theorem c4_fertilizer_dose : ∀ n : ℚ,
    fertilizerDose (generate_recommendations "vegetative" n)
      = some (max 0 (120 - n)) ∧
    fertilizerDose (generate_recommendations "tuber_initiation" n)
      = some (max 0 (140 - n)) ∧
    fertilizerDose (generate_recommendations "tuber_bulking" n)
      = some (max 0 (160 - n)) ∧
    potassiumDose (generate_recommendations "tuber_bulking" n) = some 60 ∧
    fertilizerDose (generate_recommendations "maturation" n) = none ∧
    fertilizerDose (generate_recommendations "vegetative" 100) = some 20 ∧
    fertilizerDose (generate_recommendations "tuber_bulking" 200) = some 0 := by
  intro n
  refine ⟨?_, ?_, ?_, ?_, ?_, ?_, ?_⟩ <;>
    simp [generate_recommendations, fertilizerDose, potassiumDose] <;>
    norm_num [max_def]

/-- C5: a missing required band makes the corresponding index key absent
from the result of compute_vegetation_indices (no error raised); in
particular a BandSet without B08 yields none of NDVI, NDRE, EVI. -/
theorem c5_missing_bands : ∀ bands : BandSet,
    ((bands.B08 = none ∨ bands.B04 = none) →
      (compute_vegetation_indices bands).NDVI = IndexEntry.missing) ∧
    ((bands.B08 = none ∨ bands.B05 = none) →
      (compute_vegetation_indices bands).NDRE = IndexEntry.missing) ∧
    ((bands.B08 = none ∨ bands.B04 = none ∨ bands.B02 = none) →
      (compute_vegetation_indices bands).EVI = IndexEntry.missing) ∧
    (bands.B08 = none →
      (compute_vegetation_indices bands).NDVI = IndexEntry.missing ∧
      (compute_vegetation_indices bands).NDRE = IndexEntry.missing ∧
      (compute_vegetation_indices bands).EVI = IndexEntry.missing) := by
  rintro ⟨b02, b04, b05, b08⟩
  cases b02 <;> cases b04 <;> cases b05 <;> cases b08 <;>
    simp [compute_vegetation_indices]

/-- C5 witness: the empty BandSet produces no NDVI entry. -/
theorem c5_missing_bands_witness :
    (compute_vegetation_indices ⟨none, none, none, none⟩).NDVI
      = IndexEntry.missing :=
  (c5_missing_bands ⟨none, none, none, none⟩).1 (Or.inl rfl)

/-- C1 counterexample: the EVI denominator carries no epsilon, so the
finite BandSet with every band equal to 2 makes it 2 + 12 - 15 + 1 = 0
while the numerator is also 0; the code evaluates 0/0, NaN, which np.clip
leaves NaN — a non-finite EVI entry, contradicting the claim that every
produced index value is in [-1, 1] with no division by zero. -/
theorem c1_counterexample :
    (compute_vegetation_indices ⟨some 2, some 2, some 2, some 2⟩).EVI
      = IndexEntry.nonFinite := by
  show clipDiv ((5/2) * ((2:ℚ) - 2)) (2 + 6 * 2 - (15/2) * 2 + 1)
      = IndexEntry.nonFinite
  norm_num [clipDiv]

/-- C1 amended: for a full BandSet of nonnegative finite values — which
includes the all-zero case — NDVI and NDRE always have a positive
denominator thanks to the epsilon and, like EVI whenever the EVI
denominator and numerator do not vanish together, come out as finite
values clipped into [-1, 1]; the EVI denominator has no epsilon, so the
simultaneous-vanishing case is excluded by hypothesis (the counterexample
shows it produces NaN). -/
theorem c1_amended : ∀ b02 b04 b05 b08 : ℚ,
    0 ≤ b02 → 0 ≤ b04 → 0 ≤ b05 → 0 ≤ b08 →
    ¬(b08 + 6 * b04 - (15/2) * b02 + 1 = 0 ∧ (5/2) * (b08 - b04) = 0) →
    (∃ v, (compute_vegetation_indices
        ⟨some b02, some b04, some b05, some b08⟩).NDVI
          = IndexEntry.value v ∧ -1 ≤ v ∧ v ≤ 1) ∧
    (∃ v, (compute_vegetation_indices
        ⟨some b02, some b04, some b05, some b08⟩).NDRE
          = IndexEntry.value v ∧ -1 ≤ v ∧ v ≤ 1) ∧
    (∃ v, (compute_vegetation_indices
        ⟨some b02, some b04, some b05, some b08⟩).EVI
          = IndexEntry.value v ∧ -1 ≤ v ∧ v ≤ 1) := by
  intro b02 b04 b05 b08 h02 h04 h05 h08 hevi
  refine ⟨?_, ?_, ?_⟩
  · show ∃ v, clipDiv (b08 - b04) (b08 + b04 + eps) = IndexEntry.value v ∧
        -1 ≤ v ∧ v ≤ 1
    apply clipDiv_value
    rintro ⟨hd, -⟩
    have heps : (0:ℚ) < eps := by norm_num [eps]
    linarith
  · show ∃ v, clipDiv (b08 - b05) (b08 + b05 + eps) = IndexEntry.value v ∧
        -1 ≤ v ∧ v ≤ 1
    apply clipDiv_value
    rintro ⟨hd, -⟩
    have heps : (0:ℚ) < eps := by norm_num [eps]
    linarith
  · show ∃ v, clipDiv ((5/2) * (b08 - b04))
        (b08 + 6 * b04 - (15/2) * b02 + 1) = IndexEntry.value v ∧
        -1 ≤ v ∧ v ≤ 1
    exact clipDiv_value _ _ hevi

/-- C1 witness: the all-zero BandSet, where every hypothesis of the
amended claim holds (the EVI denominator is 1). -/
theorem c1_amended_witness :
    (0:ℚ) ≤ 0 ∧
    ¬((0:ℚ) + 6 * 0 - (15/2) * 0 + 1 = 0 ∧ (5/2) * ((0:ℚ) - 0) = 0) ∧
    ((∃ v, (compute_vegetation_indices
        ⟨some 0, some 0, some 0, some 0⟩).NDVI
          = IndexEntry.value v ∧ -1 ≤ v ∧ v ≤ 1) ∧
     (∃ v, (compute_vegetation_indices
        ⟨some 0, some 0, some 0, some 0⟩).NDRE
          = IndexEntry.value v ∧ -1 ≤ v ∧ v ≤ 1) ∧
     (∃ v, (compute_vegetation_indices
        ⟨some 0, some 0, some 0, some 0⟩).EVI
          = IndexEntry.value v ∧ -1 ≤ v ∧ v ≤ 1)) :=
  ⟨le_rfl, by norm_num,
    c1_amended 0 0 0 0 le_rfl le_rfl le_rfl le_rfl (by norm_num)⟩

/-- C10: generate_recommendations echoes its two arguments unchanged in
the growth_stage and nitrogen_level fields (the Recommendation record has
exactly the four fields growth_stage, nitrogen_level, nitrogen_status,
recommendations), and nitrogen_status is low below 80, medium from 80 up
to but excluding 120, and high from 120 on. -/
theorem c10_recommendation_frame : ∀ (stage : String) (n : ℚ),
    (generate_recommendations stage n).growth_stage = stage ∧
    (generate_recommendations stage n).nitrogen_level = n ∧
    (n < 80 → (generate_recommendations stage n).nitrogen_status = "low") ∧
    (80 ≤ n → n < 120 →
      (generate_recommendations stage n).nitrogen_status = "medium") ∧
    (120 ≤ n → (generate_recommendations stage n).nitrogen_status = "high") := by
  intro stage n
  refine ⟨rfl, rfl, ?_, ?_, ?_⟩ <;>
    (intros
     show (if n < NUTRIENT_THRESHOLDS.nitrogen_low then "low"
       else if n < NUTRIENT_THRESHOLDS.nitrogen_medium then "medium"
       else "high") = _
     simp only [NUTRIENT_THRESHOLDS]
     split_ifs <;> first | rfl | linarith)

/-- C10 witness: vegetative stage at nitrogen level 50 is echoed back and
rated low. -/
theorem c10_recommendation_frame_witness :
    (generate_recommendations "vegetative" 50).nitrogen_status = "low" :=
  (c10_recommendation_frame "vegetative" 50).2.2.1 (by norm_num)

/-- C6 counterexample: a request whose lat is present but non-numeric
(float() raises on it) is not surfaced as a typed failure: predict_gee
swallows the exception, falls back to aoi = None and completes the whole
computation, returning a success response. -/
theorem c6_counterexample :
    isOkResp (predict_gee true demoFetch
      ⟨true, some none, some (some (769558/10000))⟩ 0
      "2025-06-30T00:00:00") = true := rfl

/-- C6 amended: invalid coordinates are handled silently, not surfaced:
a non-numeric lat (or an absent lon) makes the float() conversion block
fall back to aoi = None, so the run is identical to one without
coordinates; and numeric coordinates are never range-checked — any lat
and lon, however far out of range, are used as-is and the pipeline runs
to a success response whenever the fetched summary has an NDVI mean. -/
theorem c6_amended : ∀ (fetch : Option AOI → GeeSummary) (noise : ℚ)
    (now : String) (latv lonv : Option ℚ) (la lo : ℚ),
    (predict_gee true fetch ⟨true, some none, some lonv⟩ noise now
      = predict_gee true fetch ⟨true, none, none⟩ noise now) ∧
    (predict_gee true fetch ⟨true, some latv, none⟩ noise now
      = predict_gee true fetch ⟨true, none, none⟩ noise now) ∧
    ((fetch (some ⟨lo, la⟩)).ndvi_mean.isSome = true →
      isOkResp (predict_gee true fetch
        ⟨true, some (some la), some (some lo)⟩ noise now) = true) := by
  intro fetch noise now latv lonv la lo
  refine ⟨?_, ?_, ?_⟩
  · have hres : resolveAoi ⟨true, some none, some lonv⟩ = none := by
      cases lonv <;> rfl
    simp only [predict_gee, hres, resolveAoi]
  · have hres : resolveAoi ⟨true, some latv, none⟩ = none := by
      cases latv <;> rfl
    simp only [predict_gee, hres, resolveAoi]
  · intro h
    obtain ⟨v, hv⟩ := Option.isSome_iff_exists.mp h
    have hres : resolveAoi ⟨true, some (some la), some (some lo)⟩
        = some ⟨lo, la⟩ := rfl
    simp [predict_gee, isOkResp, hres, hv]

/-- C6 witness: wildly out-of-range coordinates (lat 999) are accepted
and the pipeline completes successfully on the demo fetch. -/
theorem c6_amended_witness :
    isOkResp (predict_gee true demoFetch
      ⟨true, some (some 999), some (some (769558/10000))⟩ 0
      "2025-06-30T00:00:00") = true :=
  (c6_amended demoFetch 0 "2025-06-30T00:00:00" none none 999
    (769558/10000)).2.2 rfl

/-- C7 counterexample: even when the summary was produced by the demo
synthetic path (provenance demo), the response field data_source is the
constant string Google Earth Engine, never demo. -/
theorem c7_counterexample :
    demoFetch none = { ndvi_mean := some (1/2), source := "demo" } ∧
    okDataSource (predict_gee true demoFetch ⟨true, none, none⟩ 0
      "2025-06-30T00:00:00") = some "Google Earth Engine" :=
  ⟨rfl, rfl⟩

/-- C7 amended: every successful response carries success = true, the
predictions object with growth_stage, nitrogen_level and ndvi_mean
derived from the fetched NDVI mean, the recommendations object, the
timestamp, the gee_summary, and data_source equal to the constant
Google Earth Engine regardless of which path produced the summary. -/
theorem c7_amended : ∀ (g : Bool) (fetch : Option AOI → GeeSummary)
    (req : PredictRequest) (noise : ℚ) (now : String) (r : SuccessResp),
    predict_gee g fetch req noise now = Except.ok r →
    ∃ v, (fetch (resolveAoi req)).ndvi_mean = some v ∧
      r.success = true ∧
      r.predictions.growth_stage = classifyGrowthStage v ∧
      r.predictions.nitrogen_level = nitrogenLevel v noise ∧
      r.predictions.ndvi_mean = v ∧
      r.recommendations = generate_recommendations (classifyGrowthStage v)
        (nitrogenLevel v noise) ∧
      r.timestamp = now ∧
      r.data_source = "Google Earth Engine" ∧
      r.gee_summary = fetch (resolveAoi req) := by
  intro g fetch req noise now r h
  obtain ⟨v, hv, rfl⟩ := predict_gee_ok g fetch req noise now r h
  exact ⟨v, hv, rfl, rfl, rfl, rfl, rfl, rfl, rfl, rfl⟩

/-- C7 witness: the demo run, whose hypothesis is discharged by
computation. -/
theorem c7_amended_witness :
    ∃ v, (demoFetch (resolveAoi ⟨true, none, none⟩)).ndvi_mean = some v ∧
      demoResp.success = true ∧
      demoResp.predictions.growth_stage = classifyGrowthStage v ∧
      demoResp.predictions.nitrogen_level = nitrogenLevel v 0 ∧
      demoResp.predictions.ndvi_mean = v ∧
      demoResp.recommendations = generate_recommendations
        (classifyGrowthStage v) (nitrogenLevel v 0) ∧
      demoResp.timestamp = "2025-06-30T00:00:00" ∧
      demoResp.data_source = "Google Earth Engine" ∧
      demoResp.gee_summary = demoFetch (resolveAoi ⟨true, none, none⟩) :=
  c7_amended true demoFetch ⟨true, none, none⟩ 0 "2025-06-30T00:00:00"
    demoResp rfl

/-- C8 counterexample: two runs of the pipeline with identical request,
identical fetch and the noise fixed to 0 still differ, because the
response embeds the datetime.now() reading, which is not the same at the
two calls. -/
theorem c8_counterexample :
    predict_gee true demoFetch ⟨true, none, none⟩ 0 "2025-06-30T10:00:00"
      ≠ predict_gee true demoFetch ⟨true, none, none⟩ 0
        "2025-06-30T10:00:05" := by
  intro h
  have h2 := congrArg okTimestamp h
  have e1 : okTimestamp (predict_gee true demoFetch ⟨true, none, none⟩ 0
      "2025-06-30T10:00:00") = some "2025-06-30T10:00:00" := rfl
  have e2 : okTimestamp (predict_gee true demoFetch ⟨true, none, none⟩ 0
      "2025-06-30T10:00:05") = some "2025-06-30T10:00:05" := rfl
  rw [e1, e2] at h2
  exact absurd (Option.some.inj h2) (by decide)

/-- C8 amended: the pipeline is deterministic in everything except the
embedded clock reading: two successful runs with identical fetch, request
and noise agree on predictions, recommendations, gee_summary, data_source
and success, each carries its own clock reading as timestamp, and the two
responses are byte-identical exactly when the clock readings coincide. -/
theorem c8_amended : ∀ (g : Bool) (fetch : Option AOI → GeeSummary)
    (req : PredictRequest) (noise : ℚ) (now1 now2 : String)
    (r1 r2 : SuccessResp),
    predict_gee g fetch req noise now1 = Except.ok r1 →
    predict_gee g fetch req noise now2 = Except.ok r2 →
    r1.predictions = r2.predictions ∧
    r1.recommendations = r2.recommendations ∧
    r1.gee_summary = r2.gee_summary ∧
    r1.data_source = r2.data_source ∧
    r1.success = r2.success ∧
    r1.timestamp = now1 ∧ r2.timestamp = now2 ∧
    (now1 = now2 → r1 = r2) := by
  intro g fetch req noise now1 now2 r1 r2 h1 h2
  obtain ⟨v1, hv1, rfl⟩ := predict_gee_ok g fetch req noise now1 r1 h1
  obtain ⟨v2, hv2, rfl⟩ := predict_gee_ok g fetch req noise now2 r2 h2
  have hv : v1 = v2 := Option.some.inj (hv1.symm.trans hv2)
  subst hv
  exact ⟨rfl, rfl, rfl, rfl, rfl, rfl, rfl, fun h => by rw [h]⟩

/-- C8 witness: the demo run compared with itself at one fixed clock
reading, both hypotheses discharged by computation. -/
theorem c8_amended_witness :
    demoResp.predictions = demoResp.predictions ∧
    demoResp.recommendations = demoResp.recommendations ∧
    demoResp.gee_summary = demoResp.gee_summary ∧
    demoResp.data_source = demoResp.data_source ∧
    demoResp.success = demoResp.success ∧
    demoResp.timestamp = "2025-06-30T00:00:00" ∧
    demoResp.timestamp = "2025-06-30T00:00:00" ∧
    ("2025-06-30T00:00:00" = "2025-06-30T00:00:00" →
      demoResp = demoResp) :=
  c8_amended true demoFetch ⟨true, none, none⟩ 0 "2025-06-30T00:00:00"
    "2025-06-30T00:00:00" demoResp demoResp rfl rfl

/-- C9 counterexample: at the BandSet B02 = 100, B04 = 200, B05 = 150,
B08 = 800 the computed NDVI is 600 / (1000 + 1e-8), slightly below 0.6,
and the computed NDRE is 650 / (950 + 1e-8), about 0.6842; neither equals
the exact values 0.6 and 0.68 the claim states. -/
theorem c9_counterexample :
    (compute_vegetation_indices
      ⟨some 100, some 200, some 150, some 800⟩).NDVI
        ≠ IndexEntry.value (3/5) ∧
    (compute_vegetation_indices
      ⟨some 100, some 200, some 150, some 800⟩).NDRE
        ≠ IndexEntry.value (68/100) := by
  constructor
  · show clipDiv ((800:ℚ) - 200) (800 + 200 + eps) ≠ IndexEntry.value (3/5)
    norm_num [clipDiv, npClip, eps, max_def, min_def]
  · show clipDiv ((800:ℚ) - 150) (800 + 150 + eps) ≠ IndexEntry.value (68/100)
    norm_num [clipDiv, npClip, eps, max_def, min_def]

/-- C9 amended: at that BandSet the NDVI entry is the finite value
600 / (1000 + 1e-8) = 60000000000 / 100000000001, within 1e-9 of 0.6; the
NDRE entry is 650 / (950 + 1e-8) = 65000000000 / 95000000001, within 1e-9
of 13/19 (about 0.6842, of which the claimed 0.68 was a two-digit
rounding); the EVI formula gives 1500/1251, clipped to 1; both unclipped
values lie in [-1, 1]; and the classifier at ndvi_mean 0.6 answers
tuber_bulking. -/
theorem c9_amended :
    (compute_vegetation_indices
      ⟨some 100, some 200, some 150, some 800⟩).NDVI
        = IndexEntry.value (60000000000/100000000001) ∧
    |(60000000000 : ℚ)/100000000001 - 3/5| < 1/1000000000 ∧
    (compute_vegetation_indices
      ⟨some 100, some 200, some 150, some 800⟩).NDRE
        = IndexEntry.value (65000000000/95000000001) ∧
    |(65000000000 : ℚ)/95000000001 - 13/19| < 1/1000000000 ∧
    (compute_vegetation_indices
      ⟨some 100, some 200, some 150, some 800⟩).EVI
        = IndexEntry.value 1 ∧
    (-1 ≤ (60000000000 : ℚ)/100000000001 ∧
      (60000000000 : ℚ)/100000000001 ≤ 1) ∧
    (-1 ≤ (65000000000 : ℚ)/95000000001 ∧
      (65000000000 : ℚ)/95000000001 ≤ 1) ∧
    classifyGrowthStage (3/5) = "tuber_bulking" := by
  refine ⟨?_, ?_, ?_, ?_, ?_, by norm_num, by norm_num,
    by norm_num [classifyGrowthStage]⟩
  · show clipDiv ((800:ℚ) - 200) (800 + 200 + eps)
      = IndexEntry.value (60000000000/100000000001)
    norm_num [clipDiv, npClip, eps, max_def, min_def]
  · rw [abs_lt]; constructor <;> norm_num
  · show clipDiv ((800:ℚ) - 150) (800 + 150 + eps)
      = IndexEntry.value (65000000000/95000000001)
    norm_num [clipDiv, npClip, eps, max_def, min_def]
  · rw [abs_lt]; constructor <;> norm_num
  · show clipDiv ((5/2) * ((800:ℚ) - 200)) (800 + 6 * 200 - (15/2) * 100 + 1)
      = IndexEntry.value 1
    norm_num [clipDiv, npClip, max_def, min_def]

end NdviModel

